import Mathlib

/-!
Verification of the vmaze game core against its specification.

The definitions below are a shallow embedding of the TypeScript sources:
`Maze` (wall grid and collision test), `Player` (full-revert movement),
`MonsterManager` (axis-separated sliding movement, catch handling, reset),
`ClipyManager` (stochastic wall-collision check), `PhaseManager`
(score / stage / survival phase), `TokenManager` (fixed token set) and the
orchestrating `Game` class (reset, portal gating, caught handling,
impossible-mode timeout).  World coordinates are integers at a fixed scale
of 20 units per world unit, under which every constant of the source is exact
(cell size 3.5 → 70, maze size 35 → 700, player radius 0.4 → 8, monster and
Clipy radius 0.5 → 10, portal radius 2.0 → 40, heights 1.5 → 30 and
0.7 → 14); all distance comparisons scale accordingly.  Movement
displacements (`direction · speed · deltaTime` in the source) are passed in
as explicit vector arguments, so the theorems quantify over every per-tick
displacement.  Purely audiovisual state (meshes, lights,
animation mixers, camera) and wall-clock timestamps are not part of the
embedding; sound playback is modelled by the list of sound names emitted.
-/

namespace VMaze

/-- Three-dimensional vector standing in for `THREE.Vector3`, in world
coordinates scaled by 20 (see the module docstring). -/
structure Vec3 where
  x : ℤ
  y : ℤ
  z : ℤ
deriving DecidableEq, Repr

/-- Componentwise vector addition (`Vector3.add`). -/
def Vec3.add (a b : Vec3) : Vec3 :=
  ⟨a.x + b.x, a.y + b.y, a.z + b.z⟩

/-- Squared Euclidean distance restricted to the X/Z plane. -/
def sqDistXZ (a b : Vec3) : ℤ :=
  (a.x - b.x) ^ 2 + (a.z - b.z) ^ 2

/-- Squared Euclidean distance in all three coordinates
(`Vector3.distanceTo` squared; comparing it with the squared radius is
equivalent to the source's `distanceTo(...) < radius`). -/
def sqDist3 (a b : Vec3) : ℤ :=
  (a.x - b.x) ^ 2 + (a.y - b.y) ^ 2 + (a.z - b.z) ^ 2

/-- Maze side length (`mazeSize = 35` world units, scaled). -/
def mazeSize : ℤ := 700

/-- Width of one grid cell (`cellSize = 3.5` world units, scaled). -/
def cellSize : ℤ := 70

/-- Player collision radius (`playerRadius = 0.4` world units, scaled). -/
def playerRadius : ℤ := 8

/-- Monster collision radius (`monsterRadius = 0.5` world units, scaled,
from `MonsterManager`). -/
def monsterRadius : ℤ := 10

/-- Clipy collision radius (`clipyRadius = 0.5` world units, scaled, from
`ClipyManager`). -/
def clipyRadius : ℤ := 10

/-- Exit-portal trigger radius (`portalRadius = 2.0` world units, scaled,
from `Game`). -/
def portalRadius : ℤ := 40

/-- Fixed maze layout from `Maze.initializeMaze`: 1 = wall, 0 = path. -/
def mazeLayout : List (List ℕ) :=
  [[1, 1, 1, 1, 1, 1, 1, 1, 1, 1, 1],
   [1, 0, 0, 0, 0, 0, 0, 0, 0, 0, 1],
   [1, 0, 1, 1, 0, 1, 0, 1, 1, 0, 1],
   [1, 0, 1, 0, 0, 0, 0, 0, 1, 0, 1],
   [1, 0, 0, 0, 1, 1, 1, 0, 0, 0, 1],
   [1, 0, 1, 0, 1, 0, 1, 0, 1, 0, 1],
   [1, 0, 1, 0, 1, 0, 1, 0, 1, 0, 1],
   [1, 0, 1, 0, 0, 0, 0, 0, 1, 0, 1],
   [1, 0, 1, 1, 1, 0, 1, 1, 1, 0, 1],
   [1, 0, 0, 0, 0, 0, 0, 0, 0, 0, 1],
   [1, 1, 1, 1, 1, 1, 1, 1, 1, 1, 1]]

/-- Affine grid-to-world transform
(`Maze.getWorldPositionFromGridCoordinates(gridX, gridY, height)`):
`(g * cellSize) - mazeSize/2 + cellSize/2` on each horizontal axis. -/
def getWorldPositionFromGridCoordinates (gridX gridY : ℕ) (height : ℤ) : Vec3 :=
  ⟨(gridX : ℤ) * cellSize - mazeSize / 2 + cellSize / 2,
   height,
   (gridY : ℤ) * cellSize - mazeSize / 2 + cellSize / 2⟩

/-- Centers of all wall boxes, one per layout cell equal to 1, at height 1.5
(`Maze.initializeMaze` pushes one `cellSize × 3 × cellSize` box per wall cell). -/
def wallCenters : List Vec3 :=
  (List.range 11).flatMap fun row =>
    (List.range 11).filterMap fun col =>
      if (mazeLayout.getD row []).getD col 0 = 1 then
        some (getWorldPositionFromGridCoordinates col row 30)
      else
        none

/-- Wall test from `Maze.checkWallCollision`: the circle of the given radius
around `position` overlaps some wall box on the X/Z plane (Y is ignored,
exactly as in the source, which compares only the X and Z coordinates). -/
def checkWallCollision (position : Vec3) (radius : ℤ) : Bool :=
  wallCenters.any fun w =>
    decide (position.x + radius > w.x - cellSize / 2) &&
    decide (position.x - radius < w.x + cellSize / 2) &&
    decide (position.z + radius > w.z - cellSize / 2) &&
    decide (position.z - radius < w.z + cellSize / 2)

/-- Fixed spawn cell's world position (`Maze.getStartingPosition`, cell (1,1)). -/
def getStartingPosition : Vec3 :=
  getWorldPositionFromGridCoordinates 1 1 30

/-- Player per-tick movement resolution (`Player.update`, final lines): advance
by the displacement, and on wall collision revert fully to the old position.
The displacement argument stands for `velocity · deltaTime` after rotation. -/
def playerResolve (position displacement : Vec3) : Vec3 :=
  let newPosition := position.add displacement
  if checkWallCollision newPosition playerRadius then position else newPosition

/-- Strict-pursuer per-tick movement resolution (`MonsterManager.update`,
lines 168–192): in impossible mode walls are ignored; otherwise try the full
displacement, then X-only, then Z-only, else stay put. -/
def monsterResolve (impossibleMode : Bool) (position displacement : Vec3) : Vec3 :=
  let newPosition := position.add displacement
  if impossibleMode then newPosition
  else if checkWallCollision newPosition monsterRadius then
    let xPosition := position.add ⟨displacement.x, 0, 0⟩
    if checkWallCollision xPosition monsterRadius then
      let zPosition := position.add ⟨0, 0, displacement.z⟩
      if checkWallCollision zPosition monsterRadius then position else zPosition
    else xPosition
  else newPosition

/-- Erratic-pursuer per-tick movement resolution (`ClipyManager.update`,
lines 170–174): `if (Math.random() > 0.2 && checkWallCollision(...)) revert`.
`draw` is the value of `Math.random()`, uniform on [0, 1). -/
def clipyResolve (position displacement : Vec3) (draw : ℚ) : Vec3 :=
  let newPosition := position.add displacement
  if 1 / 5 < draw ∧ checkWallCollision newPosition clipyRadius = true then position
  else newPosition

/-- Condition under which the erratic pursuer honours the wall-collision check,
mirrored on ℝ for the draw of `Math.random()`: `Math.random() > 0.2`
(`ClipyManager.update`, line 171). -/
def clipyHonorsCollision (draw : ℝ) : Prop :=
  1 / 5 < draw

/-- Clipy spawn cells from `ClipyManager.initializeClipyEnemies`
(grid X/Z pairs of the `[x, 1.5, z]` entries). -/
def clipySpawnCells : List (ℕ × ℕ) :=
  [(2, 2), (8, 2), (5, 5)]

/-- World position of the first Clipy spawn entry `[2, 1.5, 2]`. -/
def clipySpawn0 : Vec3 :=
  getWorldPositionFromGridCoordinates 2 2 30

/-- Score ceiling (`PhaseManager.maxScore = 420`, 42 tokens × 10 points). -/
def maxScore : ℤ := 420

/-- State of `PhaseManager`: score, stage, and the survival-phase flags.
The wall-clock fields (`survivalPhaseTimer`, `survivalPhaseStartTime`) and the
callback/audio references are not part of the state; timer expiry is modelled
as an event below. -/
structure PhaseManager where
  score : ℤ
  stage : ℤ
  survivalPhaseActive : Bool
  endingSurvivalPhase : Bool
deriving DecidableEq, Repr

/-- Initial `PhaseManager` state (field initializers: score 0, stage 1,
no survival phase). -/
def PhaseManager.init : PhaseManager :=
  ⟨0, 1, false, false⟩

/-- Survival-phase entry (`PhaseManager.startSurvivalPhase`): no-op when the
phase is already active, otherwise mark it active.  Audio and UI notifications
carry no further state. -/
def startSurvivalPhase (s : PhaseManager) : PhaseManager :=
  if s.survivalPhaseActive then s
  else { s with survivalPhaseActive := true }

/-- Stage-specific events (`PhaseManager.handleStageChange`): entering stage 2
starts the survival phase. -/
def handleStageChange (s : PhaseManager) : PhaseManager :=
  if s.stage = 2 then startSurvivalPhase s else s

/-- Stage progression (`PhaseManager.checkStageProgression`):
`newStage = floor(score / 50) + 1`; the stage is only ever raised. -/
def checkStageProgression (s : PhaseManager) : PhaseManager :=
  let newStage := Int.fdiv s.score 50 + 1
  if s.stage < newStage then handleStageChange { s with stage := newStage }
  else s

/-- Score accrual (`PhaseManager.addPoints`): clamp at `maxScore` from above
(`Math.min(maxScore, score + points)`), then run stage progression. -/
def addPoints (points : ℤ) (s : PhaseManager) : PhaseManager :=
  checkStageProgression { s with score := min maxScore (s.score + points) }

/-- Score deduction (`PhaseManager.subtractPoints`):
`Math.max(0, score - points)`; stage progression is not re-run. -/
def subtractPoints (points : ℤ) (s : PhaseManager) : PhaseManager :=
  { s with score := max 0 (s.score - points) }

/-- Direct score assignment (`PhaseManager.setScore`):
`Math.min(maxScore, newScore)` — note there is no clamp from below. -/
def setScore (newScore : ℤ) (s : PhaseManager) : PhaseManager :=
  { s with score := min maxScore newScore }

/-- Score reset (`PhaseManager.resetScore`): set score to 0; the stage is left
untouched. -/
def resetScore (s : PhaseManager) : PhaseManager :=
  { s with score := 0 }

/-- Stage reset (`PhaseManager.resetStage`): back to stage 1. -/
def resetStage (s : PhaseManager) : PhaseManager :=
  { s with stage := 1 }

/-- Guard of the survival-phase exit routine: the body of
`PhaseManager.endSurvivalPhase` runs iff the phase is active and not already
ending. -/
def endSurvivalPerformed (s : PhaseManager) : Bool :=
  s.survivalPhaseActive && !s.endingSurvivalPhase

/-- Survival-phase exit (`PhaseManager.endSurvivalPhase`): when the guard
passes, latch `endingSurvivalPhase`, deactivate the phase and award the +50
bonus clamped at `maxScore` (the base-track switch, victory cues and UI
notification happen in the same guarded block and are counted via
`endSurvivalPerformed`). -/
def endSurvivalPhase (s : PhaseManager) : PhaseManager :=
  if !s.survivalPhaseActive || s.endingSurvivalPhase then s
  else
    { s with
      survivalPhaseActive := false
      endingSurvivalPhase := true
      score := min maxScore (s.score + 50) }

/-- Release of the `endingSurvivalPhase` latch (the 500 ms `setTimeout` at the
end of `PhaseManager.endSurvivalPhase`). -/
def releaseEndingLatch (s : PhaseManager) : PhaseManager :=
  { s with endingSurvivalPhase := false }

/-- Full phase reset (`PhaseManager.reset`): zero the score, reset the stage,
then force-exit a still-active survival phase (which awards its +50 bonus on
top of the freshly zeroed score). -/
def phaseReset (s : PhaseManager) : PhaseManager :=
  let s1 := resetStage (resetScore s)
  if s1.survivalPhaseActive then endSurvivalPhase s1 else s1

/-- Score-changing operations quantified over by the score-bounds claim:
`addPoints`, `subtractPoints`, `setScore` and the survival-phase bonus award
(the guarded `endSurvivalPhase` body). -/
inductive ScoreOp where
  | add (points : ℤ)
  | sub (points : ℤ)
  | set (newScore : ℤ)
  | bonus
deriving DecidableEq, Repr

/-- Interpretation of one score operation on the phase state. -/
def applyScoreOp (op : ScoreOp) (s : PhaseManager) : PhaseManager :=
  match op with
  | .add p => addPoints p s
  | .sub p => subtractPoints p s
  | .set q => setScore q s
  | .bonus => endSurvivalPhase s

/-- Run of a sequence of score operations. -/
def runScoreOps (ops : List ScoreOp) (s : PhaseManager) : PhaseManager :=
  ops.foldl (fun t op => applyScoreOp op t) s

/-- Point amounts are non-negative (true at every call site of the game:
10 per token, the +50 bonus, `setScore 420`). -/
def ScoreOp.nonneg : ScoreOp → Prop
  | .add p => 0 ≤ p
  | .sub p => 0 ≤ p
  | .set q => 0 ≤ q
  | .bonus => True

instance : DecidablePred ScoreOp.nonneg := by
  intro op
  cases op <;> dsimp [ScoreOp.nonneg] <;> infer_instance

/-- Survival-phase exit triggers and the latch-release timeout
(§ `startSurvivalPhase` music-end callback, `updateSurvivalPhase` timer check,
and the 500 ms latch release). -/
inductive SurvivalEvent where
  | timerExpiry
  | musicEnd
  | latchRelease
deriving DecidableEq, Repr

/-- One survival-phase event step, returning the new state and how many times
the guarded exit block ran.  `timerExpiry` is `updateSurvivalPhase` observing
`remainingTime <= 0` and calling `endSurvivalPhase`; `musicEnd` is the
background-track `onended` callback, whose own
`survivalPhaseActive && !endingSurvivalPhase` guard coincides with
`endSurvivalPhase`'s. -/
def survivalStep (s : PhaseManager) (e : SurvivalEvent) : PhaseManager × ℕ :=
  match e with
  | .timerExpiry => (endSurvivalPhase s, if endSurvivalPerformed s then 1 else 0)
  | .musicEnd => (endSurvivalPhase s, if endSurvivalPerformed s then 1 else 0)
  | .latchRelease => (releaseEndingLatch s, 0)

/-- Run of a sequence of survival-phase events in order, accumulating the
number of times the guarded exit block executed. -/
def runSurvival (s : PhaseManager) : List SurvivalEvent → PhaseManager × ℕ
  | [] => (s, 0)
  | e :: rest =>
    let r := survivalStep s e
    let t := runSurvival r.1 rest
    (t.1, r.2 + t.2)

/-- Exit-trigger events (either of the two paths into `endSurvivalPhase`). -/
def SurvivalEvent.isTrigger : SurvivalEvent → Bool
  | .timerExpiry => true
  | .musicEnd => true
  | .latchRelease => false

/-- Fixed total token count (`TokenManager.totalTokenCount = 42`). -/
def totalTokenCount : ℕ := 42

/-- Token grid positions from `TokenManager.setupTokenPositions`, as
(gridX, gridZ) pairs of the `[x, 0.7, z]` entries. -/
def tokenGridPositions : List (ℕ × ℕ) :=
  [(1, 1), (2, 1), (3, 1), (4, 1), (5, 1), (7, 1), (8, 1), (9, 1),
   (3, 3), (4, 3), (5, 3), (6, 3), (7, 3),
   (1, 4), (2, 4), (3, 4), (7, 4), (8, 4), (9, 4),
   (1, 5), (3, 5), (7, 5), (9, 5),
   (1, 6), (3, 6), (7, 6), (9, 6),
   (1, 7), (3, 7), (4, 7), (6, 7), (7, 7), (9, 7),
   (1, 9), (2, 9), (3, 9), (4, 9), (5, 9), (6, 9), (7, 9), (8, 9), (9, 9)]

/-- World positions of the freshly (re)initialized token set
(`TokenManager.initializeTokens`; both the model branch and the fallback
branch create one token per position, at height 0.7). -/
def initialTokens : List Vec3 :=
  tokenGridPositions.map fun p =>
    getWorldPositionFromGridCoordinates p.1 p.2 14

/-- Monster spawn cells from `MonsterManager.setupMonsterPositions`
(grid X/Z pairs of the `[x, 1.5, z]` entries). -/
def monsterGridPositions : List (ℕ × ℕ) :=
  [(9, 1), (1, 9), (9, 9)]

/-- World position of the `i`-th entry of `monsterPositions`. -/
def monsterSpawn (i : ℕ) : Vec3 :=
  let p := monsterGridPositions.getD i (0, 0)
  getWorldPositionFromGridCoordinates p.1 p.2 30

/-- Position reset of the monster list (`MonsterManager.resetMonsters`): the
`i`-th monster moves to the `(i % monsterPositions.length)`-th spawn cell. -/
def resetMonsters (monsters : List Vec3) : List Vec3 :=
  monsters.mapIdx fun i _ => monsterSpawn (i % monsterGridPositions.length)

/-- Full monster reset (`MonsterManager.resetToInitialState`): drop every
monster beyond the initial three, then reset positions. -/
def resetToInitialState (monsters : List Vec3) : List Vec3 :=
  let initialCount := monsterGridPositions.length
  let kept := if initialCount < monsters.length then monsters.take initialCount else monsters
  resetMonsters kept

/-- Orchestrator state of the `Game` class as far as the claims reach: pause
and completion flags, difficulty, the player (position and sprint meter), the
pursuer lists (positions), the token set, the portal, and the phase manager.
Rendering, camera, rotation and audio handles are outside the model; the
error-dialog handoff to the UI is the `dialogPending` flag. -/
structure GameState where
  isPaused : Bool
  gameCompleted : Bool
  impossibleMode : Bool
  playerPosition : Vec3
  sprintAvailable : Bool
  sprintEnergy : ℚ
  monsters : List Vec3
  clipies : List Vec3
  tokens : List Vec3
  portal : Option Vec3
  allTokensCollected : Bool
  phase : PhaseManager
  dialogPending : Bool
deriving DecidableEq, Repr

/-- Catch handling (`Game.handlePlayerCaught`): pause, play the catch cue
once, reset the score to zero, and hand control to the UI's error dialog
(whose confirm callback performs the full reset).  Returns the state and the
sounds this handler plays. -/
def handlePlayerCaught (s : GameState) : GameState × List String :=
  ({ s with
      isPaused := true
      phase := resetScore s.phase
      dialogPending := true },
   ["jensenCatch"])

/-- Full catch path of a strict pursuer (`MonsterManager.handleMonsterCatch`):
the manager plays the catch cue itself, then invokes the orchestrator's
`handlePlayerCaught`.  (`ClipyManager.handleClipyCatch` is verbatim
identical.)  Returns the state and all sounds played on this path. -/
def monsterCatchPath (s : GameState) : GameState × List String :=
  let r := handlePlayerCaught s
  (r.1, "jensenCatch" :: r.2)

/-- Dialog acknowledgment (the confirm callback passed to
`showErrorDialog` in `Game.handlePlayerCaught`): run `resetGame(true)`. -/
def gameResetCore (s : GameState) : GameState :=
  let s1 : GameState :=
    { s with
      isPaused := false
      gameCompleted := false
      playerPosition := getStartingPosition
      monsters := resetToInitialState s.monsters
      clipies := []
      portal := none
      allTokensCollected := false
      tokens := initialTokens
      phase := phaseReset s.phase }
  let s2 := if s1.phase.score ≠ 0 then { s1 with phase := resetScore s1.phase } else s1
  if s2.tokens.length ≠ totalTokenCount then { s2 with tokens := initialTokens } else s2

/-- Game reset (`Game.resetGame(fullReset)`): unpause, clear completion,
reset the player position, prune and reset pursuers, remove Clipy enemies and
the portal, clear the all-collected flag, rebuild the token set, reset the
phase manager, then double-check that the score really is zero, and re-verify
the token count.  The `fullReset` branch only switches theme and background
music, which are outside the modelled state. -/
def resetGame (fullReset : Bool) (s : GameState) : GameState :=
  let s1 := gameResetCore s
  if fullReset then s1 else s1

/-- Acknowledgment-gated recovery after a catch: the UI confirm callback
calls `resetGame(true)`. -/
def acknowledgeCaughtDialog (s : GameState) : GameState :=
  resetGame true s

/-- Game-completion handling (`Game.handleGameCompletion`): mark completed,
pause, force-exit an active survival phase (removing the Clipy enemies), and
top the score up to the full 42 × 10 if it is below that. -/
def handleGameCompletion (s : GameState) : GameState :=
  let s1 : GameState := { s with gameCompleted := true, isPaused := true }
  let s2 :=
    if s1.phase.survivalPhaseActive then
      { s1 with phase := endSurvivalPhase s1.phase, clipies := [] }
    else s1
  if s2.phase.score < (totalTokenCount : ℤ) * 10 then
    { s2 with phase := setScore ((totalTokenCount : ℤ) * 10) s2.phase }
  else s2

/-- Portal-arrival check from `Game.update` (lines 502–525): when the
all-collected flag is set and a portal exists, re-read the remaining token
count; complete the game only if it is zero and the player is within
`portalRadius` of the portal; if tokens remain, retract the portal and clear
the flag instead.  Returns the new state and whether the win was raised. -/
def portalCheckStep (s : GameState) : GameState × Bool :=
  match s.portal with
  | some portalPosition =>
    if s.allTokensCollected then
      if s.tokens.length = 0 ∧ sqDist3 s.playerPosition portalPosition < portalRadius ^ 2 then
        (handleGameCompletion s, true)
      else if 0 < s.tokens.length then
        ({ s with allTokensCollected := false, portal := none }, false)
      else (s, false)
    else (s, false)
  | none => (s, false)

/-- Monster teleport (`MonsterManager.teleportToPlayer`): every pursuer is
moved onto the player's position. -/
def teleportToPlayer (playerPosition : Vec3) (monsters : List Vec3) : List Vec3 :=
  monsters.map fun _ => playerPosition

/-- Impossible-mode dead-man's-switch handler (the `setTimeout` callback in
`Game.setupImpossibleMode`): only `if (impossibleMode && !gameCompleted &&
!isPaused)` does it teleport all pursuers onto the player and raise the
caught event.  Returns the state and whether the caught event was raised. -/
def impossibleTimeoutFire (s : GameState) : GameState × Bool :=
  if s.impossibleMode = true ∧ s.gameCompleted = false ∧ s.isPaused = false then
    let s1 := { s with monsters := teleportToPlayer s.playerPosition s.monsters }
    ((handlePlayerCaught s1).1, true)
  else (s, false)

/-! Helper lemmas. -/

/-- Elimination form of a negative wall test: every wall box is at
Chebyshev distance at least `cellSize/2 + radius` on the violated axis. -/
lemma checkWallCollision_eq_false_iff (position : Vec3) (radius : ℤ) :
    checkWallCollision position radius = false ↔
      ∀ w ∈ wallCenters,
        position.x + radius ≤ w.x - cellSize / 2 ∨
        w.x + cellSize / 2 ≤ position.x - radius ∨
        position.z + radius ≤ w.z - cellSize / 2 ∨
        w.z + cellSize / 2 ≤ position.z - radius := by
  unfold checkWallCollision
  rw [List.any_eq_false]
  constructor
  · intro h w hw
    have hb := h w hw
    simpa only [Bool.not_eq_true, Bool.and_eq_false_iff, decide_eq_false_iff_not, not_lt,
      gt_iff_lt, or_assoc] using hb
  · intro h w hw
    have hb := h w hw
    simpa only [Bool.not_eq_true, Bool.and_eq_false_iff, decide_eq_false_iff_not, not_lt,
      gt_iff_lt, or_assoc] using hb

/-- A position passing the wall test keeps squared X/Z distance at least
`(cellSize/2 - radius)^2` from every wall center (the spec's
`distance-to-nearest-wall-center < cellSize/2 - radius` never happens). -/
lemma checkWallCollision_false_far (position : Vec3) (radius : ℤ)
    (hr : 0 ≤ radius) (h : checkWallCollision position radius = false) :
    ∀ w ∈ wallCenters, (cellSize / 2 - radius) ^ 2 ≤ sqDistXZ position w := by
  intro w hw
  have hc : cellSize / 2 = 35 := by decide
  have hb := (checkWallCollision_eq_false_iff position radius).mp h w hw
  have hsplit : cellSize / 2 + radius ≤ |position.x - w.x| ∨
      cellSize / 2 + radius ≤ |position.z - w.z| := by
    rcases hb with hb | hb | hb | hb
    · refine Or.inl ?_
      calc cellSize / 2 + radius ≤ -(position.x - w.x) := by linarith
        _ ≤ |position.x - w.x| := neg_le_abs _
    · refine Or.inl ?_
      calc cellSize / 2 + radius ≤ position.x - w.x := by linarith
        _ ≤ |position.x - w.x| := le_abs_self _
    · refine Or.inr ?_
      calc cellSize / 2 + radius ≤ -(position.z - w.z) := by linarith
        _ ≤ |position.z - w.z| := neg_le_abs _
    · refine Or.inr ?_
      calc cellSize / 2 + radius ≤ position.z - w.z := by linarith
        _ ≤ |position.z - w.z| := le_abs_self _
  have h0 : (0 : ℤ) ≤ cellSize / 2 + radius := by omega
  have hlo : (cellSize / 2 - radius) ^ 2 ≤ (cellSize / 2 + radius) ^ 2 := by
    nlinarith [hr, hc]
  unfold sqDistXZ
  rcases hsplit with hs | hs
  · have h2 : (cellSize / 2 + radius) ^ 2 ≤ (position.x - w.x) ^ 2 := by
      calc (cellSize / 2 + radius) ^ 2 ≤ |position.x - w.x| ^ 2 := pow_le_pow_left₀ h0 hs 2
        _ = (position.x - w.x) ^ 2 := sq_abs _
    linarith [sq_nonneg (position.z - w.z), hlo, h2]
  · have h2 : (cellSize / 2 + radius) ^ 2 ≤ (position.z - w.z) ^ 2 := by
      calc (cellSize / 2 + radius) ^ 2 ≤ |position.z - w.z| ^ 2 := pow_le_pow_left₀ h0 hs 2
        _ = (position.z - w.z) ^ 2 := sq_abs _
    linarith [sq_nonneg (position.x - w.x), hlo, h2]

/-- Player movement preserves a collision-free position. -/
lemma playerResolve_no_collision (position displacement : Vec3)
    (h : checkWallCollision position playerRadius = false) :
    checkWallCollision (playerResolve position displacement) playerRadius = false := by
  unfold playerResolve
  dsimp only
  split
  · exact h
  · next hcol => simpa using hcol

/-- Strict-pursuer sliding movement outside impossible mode preserves a
collision-free position. -/
lemma monsterResolve_no_collision (position displacement : Vec3)
    (h : checkWallCollision position monsterRadius = false) :
    checkWallCollision (monsterResolve false position displacement) monsterRadius = false := by
  unfold monsterResolve
  dsimp only
  rw [if_neg (by simp)]
  split
  · split
    · split
      · exact h
      · next hcol => simpa using hcol
    · next hcol => simpa using hcol
  · next hcol => simpa using hcol

/-- Reverting of the erratic pursuer is governed by the draw: whenever the
tentative position overlaps a wall and the move is non-trivial, the movement
is reverted exactly when the draw exceeds 0.2. -/
lemma clipyResolve_reverts_iff (position displacement : Vec3) (draw : ℚ)
    (hcol : checkWallCollision (position.add displacement) clipyRadius = true)
    (hne : position.add displacement ≠ position) :
    clipyResolve position displacement draw = position ↔ 1 / 5 < draw := by
  unfold clipyResolve
  dsimp only
  constructor
  · intro h
    by_contra hle
    rw [if_neg (fun hc => hle hc.1)] at h
    exact hne h
  · intro hlt
    rw [if_pos ⟨hlt, hcol⟩]

/-- Survival-phase entry changes no score and no stage. -/
lemma startSurvivalPhase_score_stage (s : PhaseManager) :
    (startSurvivalPhase s).score = s.score ∧ (startSurvivalPhase s).stage = s.stage := by
  unfold startSurvivalPhase
  split <;> exact ⟨rfl, rfl⟩

/-- Stage-change side effects change no score and no stage. -/
lemma handleStageChange_score_stage (s : PhaseManager) :
    (handleStageChange s).score = s.score ∧ (handleStageChange s).stage = s.stage := by
  unfold handleStageChange
  split
  · exact startSurvivalPhase_score_stage s
  · exact ⟨rfl, rfl⟩

/-- Stage progression never changes the score. -/
lemma checkStageProgression_score (s : PhaseManager) :
    (checkStageProgression s).score = s.score := by
  unfold checkStageProgression
  dsimp only
  split
  · exact (handleStageChange_score_stage _).1
  · rfl

/-- Stage after progression is the maximum of the old stage and
`floor(score / 50) + 1`. -/
lemma checkStageProgression_stage (s : PhaseManager) :
    (checkStageProgression s).stage = max s.stage (Int.fdiv s.score 50 + 1) := by
  unfold checkStageProgression
  dsimp only
  split
  · next hlt =>
    rw [(handleStageChange_score_stage _).2]
    exact (max_eq_right (le_of_lt hlt)).symm
  · next hge =>
    exact (max_eq_left (le_of_not_lt hge)).symm

/-- Score after `addPoints`. -/
lemma addPoints_score (p : ℤ) (s : PhaseManager) :
    (addPoints p s).score = min maxScore (s.score + p) := by
  unfold addPoints
  rw [checkStageProgression_score]

/-- Stage after `addPoints`. -/
lemma addPoints_stage (p : ℤ) (s : PhaseManager) :
    (addPoints p s).stage = max s.stage (Int.fdiv (min maxScore (s.score + p)) 50 + 1) := by
  unfold addPoints
  rw [checkStageProgression_stage]

/-- Score after the guarded survival exit: unchanged when the guard refuses,
otherwise the clamped +50 bonus. -/
lemma endSurvivalPhase_score (s : PhaseManager) :
    (endSurvivalPhase s).score = s.score ∨
    (endSurvivalPhase s).score = min maxScore (s.score + 50) := by
  unfold endSurvivalPhase
  split
  · exact Or.inl rfl
  · exact Or.inr rfl

/-- One non-negative score operation keeps the score within bounds. -/
lemma applyScoreOp_score_bounds (op : ScoreOp) (s : PhaseManager) (hop : op.nonneg)
    (h0 : 0 ≤ s.score) (h1 : s.score ≤ maxScore) :
    0 ≤ (applyScoreOp op s).score ∧ (applyScoreOp op s).score ≤ maxScore := by
  have hM : maxScore = 420 := rfl
  cases op with
  | add p =>
    have hp : (0 : ℤ) ≤ p := hop
    rw [applyScoreOp, addPoints_score]
    omega
  | sub p =>
    have hp : (0 : ℤ) ≤ p := hop
    show 0 ≤ max 0 (s.score - p) ∧ max 0 (s.score - p) ≤ maxScore
    omega
  | set q =>
    have hq : (0 : ℤ) ≤ q := hop
    show 0 ≤ min maxScore q ∧ min maxScore q ≤ maxScore
    omega
  | bonus =>
    rcases endSurvivalPhase_score s with h | h <;> rw [applyScoreOp, h] <;> omega

/-- Every run of non-negative score operations keeps the score within
bounds. -/
lemma runScoreOps_bounds (ops : List ScoreOp) :
    ∀ s : PhaseManager, 0 ≤ s.score → s.score ≤ maxScore →
      (∀ op ∈ ops, op.nonneg) →
      0 ≤ (runScoreOps ops s).score ∧ (runScoreOps ops s).score ≤ maxScore := by
  induction ops with
  | nil => intro s h0 h1 _; exact ⟨h0, h1⟩
  | cons op rest ih =>
    intro s h0 h1 hall
    have hstep := applyScoreOp_score_bounds op s (hall op (by simp)) h0 h1
    have hrun : runScoreOps (op :: rest) s = runScoreOps rest (applyScoreOp op s) := rfl
    rw [hrun]
    exact ih _ hstep.1 hstep.2 fun o ho => hall o (by simp [ho])

/-- Floor division by the 50-point stage interval is monotone. -/
lemma fdiv50_mono {a b : ℤ} (h : a ≤ b) : Int.fdiv a 50 ≤ Int.fdiv b 50 := by
  rw [Int.fdiv_eq_ediv _ (by norm_num), Int.fdiv_eq_ediv _ (by norm_num)]
  exact Int.ediv_le_ediv (by norm_num) h

/-- Stage-law invariant: score within bounds and stage derived from score. -/
def StageInv (s : PhaseManager) : Prop :=
  0 ≤ s.score ∧ s.score ≤ maxScore ∧ s.stage = Int.fdiv s.score 50 + 1

instance : DecidablePred StageInv := by
  intro s
  dsimp [StageInv]
  infer_instance

/-- A non-negative `addPoints` preserves the stage-law invariant. -/
lemma addPoints_stageInv (p : ℤ) (s : PhaseManager) (hp : 0 ≤ p)
    (h : StageInv s) : StageInv (addPoints p s) := by
  unfold StageInv at h ⊢
  obtain ⟨h0, h1, h2⟩ := h
  have hM : maxScore = 420 := rfl
  have hscore : (addPoints p s).score = min maxScore (s.score + p) := addPoints_score p s
  have hmono : s.score ≤ min maxScore (s.score + p) := by omega
  refine ⟨?_, ?_, ?_⟩
  · rw [hscore]; omega
  · rw [hscore]; omega
  · rw [hscore, addPoints_stage, h2]
    exact max_eq_right (by linarith [fdiv50_mono hmono])

/-- Runs of non-negative `addPoints` operations preserve the stage-law
invariant. -/
lemma runAdds_stageInv (ps : List ℤ) :
    ∀ s : PhaseManager, StageInv s → (∀ p ∈ ps, 0 ≤ p) →
      StageInv (runScoreOps (ps.map ScoreOp.add) s) := by
  induction ps with
  | nil => intro s hs _; exact hs
  | cons p rest ih =>
    intro s hs hall
    have hstep := addPoints_stageInv p s (hall p (by simp)) hs
    have hrun : runScoreOps ((p :: rest).map ScoreOp.add) s =
        runScoreOps (rest.map ScoreOp.add) (addPoints p s) := rfl
    rw [hrun]
    exact ih _ hstep fun o ho => hall o (by simp [ho])

/-! Claim theorems. -/

/-- Claim C1, counterexample.  The claim asserts collision containment for
both pursuer kinds under any random draws.  It fails for the erratic pursuer:
its first spawn entry `[2, 1.5, 2]` lies at the center of the wall cell (2,2),
and after one `ClipyManager.update` tick from the initial spawn configuration
(here with `deltaTime = 0`, so the displacement is zero, and draw 0.1) the
resolved position sits at distance 0 from that wall center — strictly less
than `cellSize/2 - radius` (1.25 world units). -/
theorem C1_collision_containment_cex :
    (⟨-175, 30, -175⟩ : Vec3) ∈ wallCenters ∧
    sqDistXZ (clipyResolve clipySpawn0 ⟨0, 0, 0⟩ (1/10)) ⟨-175, 30, -175⟩
      < (cellSize / 2 - clipyRadius) ^ 2 := by
  have hres : clipyResolve clipySpawn0 ⟨0, 0, 0⟩ (1/10) = clipySpawn0 := by
    unfold clipyResolve
    dsimp only
    rw [show clipySpawn0.add ⟨0, 0, 0⟩ = clipySpawn0 by simp [Vec3.add], ite_self]
  rw [hres]
  constructor
  · decide
  · decide

/-- Claim C1, amended: collision containment holds for the player (full
revert) and for strict pursuers outside impossible mode (axis-separated
sliding): if the pre-tick position passes the wall test, so does the resolved
position, whatever the per-tick displacement; in particular the resolved
position keeps squared X/Z distance at least `(cellSize/2 - radius)^2` from
every wall center.  Erratic pursuers (and impossible-mode pursuers) are
exempt: they spawn on wall cells and skip the collision check on draws
at most 0.2. -/
theorem C1_collision_containment
    (playerPos playerDisp monsterPos monsterDisp : Vec3)
    (hp : checkWallCollision playerPos playerRadius = false)
    (hm : checkWallCollision monsterPos monsterRadius = false) :
    checkWallCollision (playerResolve playerPos playerDisp) playerRadius = false ∧
    checkWallCollision (monsterResolve false monsterPos monsterDisp) monsterRadius = false ∧
    (∀ w ∈ wallCenters,
      (cellSize / 2 - playerRadius) ^ 2 ≤ sqDistXZ (playerResolve playerPos playerDisp) w) ∧
    (∀ w ∈ wallCenters,
      (cellSize / 2 - monsterRadius) ^ 2 ≤
        sqDistXZ (monsterResolve false monsterPos monsterDisp) w) := by
  have hp' := playerResolve_no_collision playerPos playerDisp hp
  have hm' := monsterResolve_no_collision monsterPos monsterDisp hm
  refine ⟨hp', hm', ?_, ?_⟩
  · exact checkWallCollision_false_far _ _ (by norm_num [playerRadius]) hp'
  · exact checkWallCollision_false_far _ _ (by norm_num [monsterRadius]) hm'

/-- Witness for C1: the player spawn and the first monster spawn are
collision-free, and the amended containment theorem applies there with a
concrete one-cell displacement. -/
theorem C1_collision_containment_witness :
    checkWallCollision getStartingPosition playerRadius = false ∧
    checkWallCollision (monsterSpawn 0) monsterRadius = false ∧
    (checkWallCollision (playerResolve getStartingPosition ⟨20, 0, 0⟩) playerRadius = false ∧
     checkWallCollision (monsterResolve false (monsterSpawn 0) ⟨0, 0, 20⟩) monsterRadius = false ∧
     (∀ w ∈ wallCenters,
       (cellSize / 2 - playerRadius) ^ 2 ≤
         sqDistXZ (playerResolve getStartingPosition ⟨20, 0, 0⟩) w) ∧
     (∀ w ∈ wallCenters,
       (cellSize / 2 - monsterRadius) ^ 2 ≤
         sqDistXZ (monsterResolve false (monsterSpawn 0) ⟨0, 0, 20⟩) w)) :=
  ⟨by decide, by decide,
   C1_collision_containment getStartingPosition ⟨20, 0, 0⟩ (monsterSpawn 0) ⟨0, 0, 20⟩
     (by decide) (by decide)⟩

/-- Claim C2, counterexample.  The claim asserts `0 ≤ score ≤ 420` for every
sequence of `addPoints` / `subtractPoints` / `setScore` / bonus operations.
`PhaseManager.setScore` clamps only from above (`Math.min(maxScore,
newScore)`), so `setScore(-1)` drives the score below zero. -/
theorem C2_score_bounds_cex :
    (runScoreOps [ScoreOp.set (-1)] PhaseManager.init).score < 0 := by
  decide

/-- Claim C2, amended: for every sequence of `addPoints(p)`,
`subtractPoints(p)`, `setScore(s)` and survival-bonus operations whose
arguments are non-negative (as at every call site of the game), the score
stays within `[0, maxScore]` = [0, 420]. -/
theorem C2_score_bounds (ops : List ScoreOp) (h : ∀ op ∈ ops, op.nonneg) :
    0 ≤ (runScoreOps ops PhaseManager.init).score ∧
    (runScoreOps ops PhaseManager.init).score ≤ maxScore := by
  have := runScoreOps_bounds ops PhaseManager.init (by decide) (by decide) h
  exact this

/-- Witness for C2: a concrete non-negative operation sequence. -/
theorem C2_score_bounds_witness :
    (∀ op ∈ [ScoreOp.add 10, ScoreOp.bonus, ScoreOp.sub 5], op.nonneg) ∧
    (0 ≤ (runScoreOps [ScoreOp.add 10, ScoreOp.bonus, ScoreOp.sub 5] PhaseManager.init).score ∧
     (runScoreOps [ScoreOp.add 10, ScoreOp.bonus, ScoreOp.sub 5] PhaseManager.init).score
       ≤ maxScore) :=
  ⟨by decide, C2_score_bounds [ScoreOp.add 10, ScoreOp.bonus, ScoreOp.sub 5] (by decide)⟩

/-- Claim C3, counterexample.  The claim asserts
`stage = floor(score/50) + 1` after any sequence of score-changing operations,
point subtraction included.  `subtractPoints` never re-runs
`checkStageProgression`, so after `addPoints(50); subtractPoints(50)` the
stage is still 2 while `floor(0/50) + 1 = 1`. -/
theorem C3_stage_law_cex :
    (runScoreOps [ScoreOp.add 50, ScoreOp.sub 50] PhaseManager.init).stage ≠
      Int.fdiv (runScoreOps [ScoreOp.add 50, ScoreOp.sub 50] PhaseManager.init).score 50 + 1 := by
  decide

/-- Claim C3, amended: along runs made of `addPoints` with non-negative
amounts only (token pickups) from the initial state, the stage equals
`floor(score/50) + 1` at every observation point (every such run is a prefix
of a longer one), and the stage never decreases when more points are added.
Point subtraction, the direct survival bonus and `resetScore` leave the stage
untouched, so the equality can break after them (see the counterexample). -/
theorem C3_stage_law (ps : List ℤ) (h : ∀ p ∈ ps, 0 ≤ p) :
    (runScoreOps (ps.map ScoreOp.add) PhaseManager.init).stage =
      Int.fdiv (runScoreOps (ps.map ScoreOp.add) PhaseManager.init).score 50 + 1 ∧
    ∀ q : ℤ, (runScoreOps (ps.map ScoreOp.add) PhaseManager.init).stage ≤
      (addPoints q (runScoreOps (ps.map ScoreOp.add) PhaseManager.init)).stage := by
  refine ⟨(runAdds_stageInv ps PhaseManager.init (by decide) h).2.2, fun q => ?_⟩
  rw [addPoints_stage]
  exact le_max_left _ _

/-- Witness for C3: two concrete pickups of 10 and 50 points. -/
theorem C3_stage_law_witness :
    (∀ p ∈ [(10 : ℤ), 50], 0 ≤ p) ∧
    ((runScoreOps ([(10 : ℤ), 50].map ScoreOp.add) PhaseManager.init).stage =
      Int.fdiv (runScoreOps ([(10 : ℤ), 50].map ScoreOp.add) PhaseManager.init).score 50 + 1 ∧
     ∀ q : ℤ, (runScoreOps ([(10 : ℤ), 50].map ScoreOp.add) PhaseManager.init).stage ≤
      (addPoints q (runScoreOps ([(10 : ℤ), 50].map ScoreOp.add) PhaseManager.init)).stage) :=
  ⟨by decide, C3_stage_law [10, 50] (by decide)⟩

/-- Concrete impossible-mode game state that is paused at the moment the
dead-man's-switch timer fires (the player has not been caught — no dialog is
pending — and the game is not completed). -/
def pausedImpossibleState : GameState :=
  { isPaused := true
    gameCompleted := false
    impossibleMode := true
    playerPosition := getStartingPosition
    sprintAvailable := false
    sprintEnergy := 100
    monsters := [monsterSpawn 0, monsterSpawn 1, monsterSpawn 2]
    clipies := []
    tokens := initialTokens
    portal := none
    allTokensCollected := false
    phase := ⟨100, 3, false, false⟩
    dialogPending := false }

/-- Claim C4, counterexample.  The claim asserts the timer handler
force-teleports the pursuers and raises the caught event even while the game
is paused.  The handler's guard in `Game.setupImpossibleMode` is
`if (impossibleMode && !gameCompleted && !isPaused)`, so on a paused,
uncompleted impossible-mode state it does nothing at all: no teleport, no
caught event. -/
theorem C4_impossible_timeout_cex :
    pausedImpossibleState.impossibleMode = true ∧
    pausedImpossibleState.gameCompleted = false ∧
    pausedImpossibleState.isPaused = true ∧
    impossibleTimeoutFire pausedImpossibleState = (pausedImpossibleState, false) := by
  refine ⟨rfl, rfl, rfl, ?_⟩
  rw [impossibleTimeoutFire, if_neg]
  intro hc
  exact absurd hc.2.2 (by decide)

/-- Claim C4, amended: when the timer fires with impossible mode set, the
game not completed and the game NOT paused, the handler teleports every
pursuer onto the player's position and raises the caught event (which pauses
the game, resets the score and hands control to the UI dialog).  A pause in
effect at firing time suppresses the handler entirely. -/
theorem C4_impossible_timeout (s : GameState)
    (h1 : s.impossibleMode = true) (h2 : s.gameCompleted = false)
    (h3 : s.isPaused = false) :
    (impossibleTimeoutFire s).2 = true ∧
    (impossibleTimeoutFire s).1.monsters = teleportToPlayer s.playerPosition s.monsters ∧
    (impossibleTimeoutFire s).1.isPaused = true ∧
    (impossibleTimeoutFire s).1.phase.score = 0 ∧
    (impossibleTimeoutFire s).1.dialogPending = true := by
  rw [impossibleTimeoutFire, if_pos ⟨h1, h2, h3⟩]
  exact ⟨rfl, rfl, rfl, rfl, rfl⟩

/-- Witness for C4: the same state as the counterexample but unpaused. -/
theorem C4_impossible_timeout_witness :
    ({ pausedImpossibleState with isPaused := false } : GameState).impossibleMode = true ∧
    ({ pausedImpossibleState with isPaused := false } : GameState).gameCompleted = false ∧
    ({ pausedImpossibleState with isPaused := false } : GameState).isPaused = false ∧
    ((impossibleTimeoutFire { pausedImpossibleState with isPaused := false }).2 = true ∧
     (impossibleTimeoutFire { pausedImpossibleState with isPaused := false }).1.monsters =
       teleportToPlayer ({ pausedImpossibleState with isPaused := false } : GameState).playerPosition
         ({ pausedImpossibleState with isPaused := false } : GameState).monsters ∧
     (impossibleTimeoutFire { pausedImpossibleState with isPaused := false }).1.isPaused = true ∧
     (impossibleTimeoutFire { pausedImpossibleState with isPaused := false }).1.phase.score = 0 ∧
     (impossibleTimeoutFire { pausedImpossibleState with isPaused := false }).1.dialogPending
       = true) :=
  ⟨rfl, rfl, rfl,
   C4_impossible_timeout { pausedImpossibleState with isPaused := false } rfl rfl rfl⟩

/-- Claim C5, counterexample.  The claim asserts the erratic pursuer honours
the wall-collision check with probability ~0.2.  The source condition is
`Math.random() > 0.2 && checkWallCollision(...)`, so the set of draws on
which the check is honoured is `(0.2, 1)`, of measure 4/5 — not 1/5. -/
theorem C5_clipy_phasing_cex :
    MeasureTheory.volume {u : ℝ | u ∈ Set.Ioo (0 : ℝ) 1 ∧ clipyHonorsCollision u}
      ≠ ENNReal.ofReal (1 / 5) := by
  have hset : {u : ℝ | u ∈ Set.Ioo (0 : ℝ) 1 ∧ clipyHonorsCollision u}
      = Set.Ioo (1 / 5 : ℝ) 1 := by
    ext u
    constructor
    · rintro ⟨⟨_, hu1⟩, hu2⟩
      exact ⟨hu2, hu1⟩
    · rintro ⟨hu2, hu1⟩
      exact ⟨⟨by linarith, hu1⟩, hu2⟩
  rw [hset, Real.volume_Ioo]
  intro hEq
  rw [ENNReal.ofReal_eq_ofReal_iff (by norm_num) (by norm_num)] at hEq
  norm_num at hEq

/-- Claim C5, amended: on each movement attempt of an erratic pursuer the
wall-collision check is honoured with probability 4/5 (draws in `(0.2, 1)`)
and skipped with probability 1/5 — the source comment agrees: "80% chance to
collide with walls". -/
theorem C5_clipy_phasing :
    MeasureTheory.volume {u : ℝ | u ∈ Set.Ioo (0 : ℝ) 1 ∧ clipyHonorsCollision u}
      = ENNReal.ofReal (4 / 5) := by
  have hset : {u : ℝ | u ∈ Set.Ioo (0 : ℝ) 1 ∧ clipyHonorsCollision u}
      = Set.Ioo (1 / 5 : ℝ) 1 := by
    ext u
    constructor
    · rintro ⟨⟨_, hu1⟩, hu2⟩
      exact ⟨hu2, hu1⟩
    · rintro ⟨hu2, hu1⟩
      exact ⟨⟨by linarith, hu1⟩, hu2⟩
  rw [hset, Real.volume_Ioo]
  norm_num

/-- With the phase inactive, `endSurvivalPhase` is a no-op. -/
lemma endSurvivalPhase_inactive (s : PhaseManager)
    (h : s.survivalPhaseActive = false) : endSurvivalPhase s = s := by
  unfold endSurvivalPhase
  rw [if_pos]
  simp [h]

/-- Unfolding of one event in a survival run. -/
lemma runSurvival_cons (s : PhaseManager) (e : SurvivalEvent) (rest : List SurvivalEvent) :
    runSurvival s (e :: rest) =
      ((runSurvival (survivalStep s e).1 rest).1,
       (survivalStep s e).2 + (runSurvival (survivalStep s e).1 rest).2) := rfl

/-- With the phase inactive, no later event re-runs the exit block: the run
accumulates zero executions, keeps the score, and the phase stays inactive. -/
lemma runSurvival_inactive (events : List SurvivalEvent) :
    ∀ s : PhaseManager, s.survivalPhaseActive = false →
      (runSurvival s events).1.survivalPhaseActive = false ∧
      (runSurvival s events).1.score = s.score ∧
      (runSurvival s events).2 = 0 := by
  induction events with
  | nil => intro s h; exact ⟨h, rfl, rfl⟩
  | cons e rest ih =>
    intro s h
    rw [runSurvival_cons]
    have hstep : (survivalStep s e).1.survivalPhaseActive = false ∧
        (survivalStep s e).1.score = s.score ∧ (survivalStep s e).2 = 0 := by
      cases e with
      | timerExpiry =>
        simp [survivalStep, endSurvivalPhase_inactive s h, endSurvivalPerformed, h]
      | musicEnd =>
        simp [survivalStep, endSurvivalPhase_inactive s h, endSurvivalPerformed, h]
      | latchRelease =>
        simp [survivalStep, releaseEndingLatch, h]
    obtain ⟨h1, h2, h3⟩ := hstep
    have hrest := ih _ h1
    refine ⟨hrest.1, ?_, ?_⟩
    · show (runSurvival (survivalStep s e).1 rest).1.score = s.score
      rw [hrest.2.1, h2]
    · show (survivalStep s e).2 + (runSurvival (survivalStep s e).1 rest).2 = 0
      rw [h3, hrest.2.2]

/-- From an active phase with the latch clear, any event run containing at
least one exit trigger executes the exit block exactly once, leaves the phase
inactive, and awards the clamped +50 bonus exactly once. -/
lemma runSurvival_active (events : List SurvivalEvent) :
    ∀ s : PhaseManager, s.survivalPhaseActive = true →
      s.endingSurvivalPhase = false →
      (∃ e ∈ events, e.isTrigger = true) →
      (runSurvival s events).2 = 1 ∧
      (runSurvival s events).1.survivalPhaseActive = false ∧
      (runSurvival s events).1.score = min maxScore (s.score + 50) := by
  induction events with
  | nil =>
    intro s _ _ htrig
    obtain ⟨e, he, _⟩ := htrig
    exact absurd he (List.not_mem_nil e)
  | cons e rest ih =>
    intro s hA hE htrig
    have hperf : endSurvivalPerformed s = true := by
      unfold endSurvivalPerformed
      rw [hA, hE]
      rfl
    have hend : endSurvivalPhase s =
        { s with survivalPhaseActive := false, endingSurvivalPhase := true,
                 score := min maxScore (s.score + 50) } := by
      unfold endSurvivalPhase
      rw [if_neg]
      simp [hA, hE]
    rw [runSurvival_cons]
    cases e with
    | timerExpiry =>
      have hstep : survivalStep s SurvivalEvent.timerExpiry = (endSurvivalPhase s, 1) := by
        unfold survivalStep
        rw [hperf]
        rfl
      rw [hstep, hend]
      have hrest := runSurvival_inactive rest
        { s with survivalPhaseActive := false, endingSurvivalPhase := true,
                 score := min maxScore (s.score + 50) } rfl
      refine ⟨?_, hrest.1, hrest.2.1⟩
      show 1 + (runSurvival _ rest).2 = 1
      rw [hrest.2.2]
    | musicEnd =>
      have hstep : survivalStep s SurvivalEvent.musicEnd = (endSurvivalPhase s, 1) := by
        unfold survivalStep
        rw [hperf]
        rfl
      rw [hstep, hend]
      have hrest := runSurvival_inactive rest
        { s with survivalPhaseActive := false, endingSurvivalPhase := true,
                 score := min maxScore (s.score + 50) } rfl
      refine ⟨?_, hrest.1, hrest.2.1⟩
      show 1 + (runSurvival _ rest).2 = 1
      rw [hrest.2.2]
    | latchRelease =>
      have hsame : releaseEndingLatch s = s := by
        unfold releaseEndingLatch
        cases s
        simp_all
      have hstep : survivalStep s SurvivalEvent.latchRelease = (s, 0) := by
        unfold survivalStep
        rw [hsame]
      have htrig' : ∃ e ∈ rest, SurvivalEvent.isTrigger e = true := by
        obtain ⟨e, he, htr⟩ := htrig
        rcases List.mem_cons.mp he with rfl | hrest
        · exact absurd htr (by decide)
        · exact ⟨e, hrest, htr⟩
      rw [hstep]
      have hrec := ih s hA hE htrig'
      refine ⟨?_, hrec.2.1, hrec.2.2⟩
      show 0 + (runSurvival s rest).2 = 1
      rw [hrec.1]

/-- Claim C6: per survival-phase activation (`startSurvivalPhase` from an
inactive state with the ending latch clear), the side effects of
`endSurvivalPhase` — the +50 bonus clamped at `maxScore`, the base-track
switch, the victory cues, the UI phase-end notification — occur exactly once,
regardless of whether the 84-second timer expiry or the natural track end
triggers the exit first, and even if both fire; the latch-release timeout may
interleave anywhere. -/
theorem C6_survival_single_exit (s : PhaseManager) (events : List SurvivalEvent)
    (hinactive : s.survivalPhaseActive = false)
    (hlatch : s.endingSurvivalPhase = false)
    (htrigger : ∃ e ∈ events, e.isTrigger = true) :
    (runSurvival (startSurvivalPhase s) events).2 = 1 ∧
    (runSurvival (startSurvivalPhase s) events).1.survivalPhaseActive = false ∧
    (runSurvival (startSurvivalPhase s) events).1.score = min maxScore (s.score + 50) := by
  have hstart : startSurvivalPhase s = { s with survivalPhaseActive := true } := by
    unfold startSurvivalPhase
    rw [if_neg]
    simp [hinactive]
  rw [hstart]
  exact runSurvival_active events { s with survivalPhaseActive := true } rfl hlatch htrigger

/-- Witness for C6: both triggers fire (timer first, then the track end),
with a latch release in between. -/
theorem C6_survival_single_exit_witness :
    PhaseManager.init.survivalPhaseActive = false ∧
    PhaseManager.init.endingSurvivalPhase = false ∧
    (∃ e ∈ [SurvivalEvent.timerExpiry, SurvivalEvent.latchRelease, SurvivalEvent.musicEnd],
      e.isTrigger = true) ∧
    ((runSurvival (startSurvivalPhase PhaseManager.init)
        [SurvivalEvent.timerExpiry, SurvivalEvent.latchRelease, SurvivalEvent.musicEnd]).2 = 1 ∧
     (runSurvival (startSurvivalPhase PhaseManager.init)
        [SurvivalEvent.timerExpiry, SurvivalEvent.latchRelease,
          SurvivalEvent.musicEnd]).1.survivalPhaseActive = false ∧
     (runSurvival (startSurvivalPhase PhaseManager.init)
        [SurvivalEvent.timerExpiry, SurvivalEvent.latchRelease, SurvivalEvent.musicEnd]).1.score =
       min maxScore (PhaseManager.init.score + 50)) :=
  ⟨rfl, rfl, ⟨SurvivalEvent.timerExpiry, by decide, rfl⟩,
   C6_survival_single_exit PhaseManager.init
     [SurvivalEvent.timerExpiry, SurvivalEvent.latchRelease, SurvivalEvent.musicEnd]
     rfl rfl ⟨SurvivalEvent.timerExpiry, by decide, rfl⟩⟩

/-- Fields of the phase manager after `PhaseManager.reset`: the stage is 1,
the phase is inactive, and the score is either 0 (no active phase) or 50 (the
forced exit of an active phase awards its +50 bonus on top of the freshly
zeroed score). -/
lemma phaseReset_fields (s : PhaseManager)
    (hl : s.survivalPhaseActive = true → s.endingSurvivalPhase = false) :
    (phaseReset s).stage = 1 ∧ (phaseReset s).survivalPhaseActive = false ∧
    ((phaseReset s).score = 0 ∨ (phaseReset s).score = 50) := by
  unfold phaseReset resetStage resetScore
  dsimp only
  by_cases hA : s.survivalPhaseActive = true
  · rw [if_pos hA]
    unfold endSurvivalPhase
    rw [if_neg (by simp [hA, hl hA])]
    have h50 : (min maxScore ((0 : ℤ) + 50)) = 50 := by decide
    exact ⟨rfl, rfl, Or.inr h50⟩
  · rw [if_neg hA]
    exact ⟨rfl, by simpa using hA, Or.inl rfl⟩

/-- After `MonsterManager.resetToInitialState` on a list of at least the
initial three pursuers, exactly the initial three remain. -/
lemma resetToInitialState_length (monsters : List Vec3) (h : 3 ≤ monsters.length) :
    (resetToInitialState monsters).length = 3 := by
  unfold resetToInitialState resetMonsters
  dsimp only
  rw [List.length_mapIdx]
  have h3 : monsterGridPositions.length = 3 := rfl
  rw [h3]
  split
  · rw [List.length_take]
    omega
  · next h2 => omega

/-- Claim C7: after `resetGame(fullReset = true)` on a state whose managers
are initialized (at least the three original pursuers present, and — when a
survival phase is active — its ending latch clear), the token count is back
to the full 42, the score is 0, the stage is 1, exactly the three original
pursuers remain, no Clipy enemies remain, the survival phase is inactive and
the portal is absent; this includes a reset invoked while a survival phase is
active, whose forced exit awards +50 mid-reset before the final score
double-check zeroes it. -/
theorem C7_reset_completeness (s : GameState)
    (hmon : 3 ≤ s.monsters.length)
    (hlatch : s.phase.survivalPhaseActive = true → s.phase.endingSurvivalPhase = false) :
    (resetGame true s).tokens.length = totalTokenCount ∧
    (resetGame true s).phase.score = 0 ∧
    (resetGame true s).phase.stage = 1 ∧
    (resetGame true s).monsters.length = 3 ∧
    (resetGame true s).clipies = [] ∧
    (resetGame true s).phase.survivalPhaseActive = false ∧
    (resetGame true s).portal = none := by
  obtain ⟨hstage, hactive, hscore⟩ := phaseReset_fields s.phase hlatch
  have hmlen := resetToInitialState_length s.monsters hmon
  have htok : initialTokens.length = totalTokenCount := by decide
  unfold resetGame gameResetCore
  dsimp only
  rw [ite_self]
  by_cases hsc : (phaseReset s.phase).score ≠ 0
  · rw [if_pos hsc, if_neg (fun hne => hne htok)]
    exact ⟨htok, rfl, by simpa [resetScore] using hstage, hmlen, rfl,
      by simpa [resetScore] using hactive, rfl⟩
  · rw [if_neg hsc, if_neg (fun hne => hne htok)]
    push_neg at hsc
    exact ⟨htok, hsc, hstage, hmlen, rfl, hactive, rfl⟩

/-- Concrete pre-reset state for the C7 witness: six pursuers (three added
mid-game), one Clipy, every token collected, the portal up, and an active
survival phase whose forced exit will award +50 in the middle of the reset. -/
def preResetState : GameState :=
  { isPaused := true
    gameCompleted := false
    impossibleMode := false
    playerPosition := getStartingPosition
    sprintAvailable := true
    sprintEnergy := 37
    monsters := [monsterSpawn 0, monsterSpawn 1, monsterSpawn 2,
                 clipySpawn0, clipySpawn0, clipySpawn0]
    clipies := [clipySpawn0]
    tokens := []
    portal := some (getWorldPositionFromGridCoordinates 3 1 24)
    allTokensCollected := true
    phase := ⟨370, 8, true, false⟩
    dialogPending := false }

/-- Witness for C7: the reset-completeness theorem applied to the concrete
mid-survival-phase state. -/
theorem C7_reset_completeness_witness :
    3 ≤ preResetState.monsters.length ∧
    (preResetState.phase.survivalPhaseActive = true →
      preResetState.phase.endingSurvivalPhase = false) ∧
    ((resetGame true preResetState).tokens.length = totalTokenCount ∧
     (resetGame true preResetState).phase.score = 0 ∧
     (resetGame true preResetState).phase.stage = 1 ∧
     (resetGame true preResetState).monsters.length = 3 ∧
     (resetGame true preResetState).clipies = [] ∧
     (resetGame true preResetState).phase.survivalPhaseActive = false ∧
     (resetGame true preResetState).portal = none) :=
  ⟨by decide, by decide, C7_reset_completeness preResetState (by decide) (by decide)⟩

/-- Claim C8: the win is raised exactly when, at the tick of portal arrival,
the all-collected flag is set, a portal exists, the freshly re-read remaining
token count is zero and the player is within `portalRadius` of the portal;
and whenever the flag is set and a portal exists but tokens remain, the
self-healing branch retracts the portal, clears the flag and raises no win. -/
theorem C8_portal_gating (s : GameState) :
    ((portalCheckStep s).2 = true ↔
      s.allTokensCollected = true ∧ ∃ pp, s.portal = some pp ∧ s.tokens.length = 0 ∧
        sqDist3 s.playerPosition pp < portalRadius ^ 2) ∧
    (∀ pp, s.portal = some pp → s.allTokensCollected = true → 0 < s.tokens.length →
      (portalCheckStep s).1.portal = none ∧
      (portalCheckStep s).1.allTokensCollected = false ∧
      (portalCheckStep s).2 = false) := by
  unfold portalCheckStep
  rcases hport : s.portal with _ | pp
  · dsimp only
    constructor
    · simp
    · intro pp hpp
      exact absurd hpp (by simp)
  · dsimp only
    by_cases hflag : s.allTokensCollected = true
    · rw [if_pos hflag]
      by_cases hwin : s.tokens.length = 0 ∧ sqDist3 s.playerPosition pp < portalRadius ^ 2
      · rw [if_pos hwin]
        constructor
        · simp only [true_iff]
          exact ⟨hflag, pp, rfl, hwin.1, hwin.2⟩
        · intro pp' hpp' _ hrem
          obtain rfl : pp = pp' := by injection hpp'
          omega
      · rw [if_neg hwin]
        by_cases hrem : 0 < s.tokens.length
        · rw [if_pos hrem]
          constructor
          · simp only [Bool.false_eq_true, false_iff]
            rintro ⟨_, pp', hpp', hlen, hdist⟩
            obtain rfl : pp = pp' := by injection hpp'
            exact hwin ⟨hlen, hdist⟩
          · intro pp' _ _ _
            exact ⟨rfl, rfl, rfl⟩
        · rw [if_neg hrem]
          constructor
          · simp only [Bool.false_eq_true, false_iff]
            rintro ⟨_, pp', hpp', hlen, hdist⟩
            obtain rfl : pp = pp' := by injection hpp'
            exact hwin ⟨hlen, hdist⟩
          · intro pp' _ _ hrem'
            exact absurd hrem' hrem
    · rw [if_neg hflag]
      constructor
      · simp only [Bool.false_eq_true, false_iff]
        rintro ⟨hflag', _⟩
        exact hflag hflag'
      · intro pp' _ hflag' _
        exact absurd hflag' hflag

/-- Concrete winning state for the C8 witness: all tokens collected, portal
up, player standing on the portal position. -/
def portalWinState : GameState :=
  { isPaused := false
    gameCompleted := false
    impossibleMode := false
    playerPosition := getWorldPositionFromGridCoordinates 5 5 30
    sprintAvailable := true
    sprintEnergy := 100
    monsters := [monsterSpawn 0, monsterSpawn 1, monsterSpawn 2]
    clipies := []
    tokens := []
    portal := some (getWorldPositionFromGridCoordinates 5 5 24)
    allTokensCollected := true
    phase := ⟨420, 9, false, false⟩
    dialogPending := false }

/-- Witness for C8: the gating theorem applied to the winning state (win
raised) and to the same state with three tokens left (self-healing branch). -/
theorem C8_portal_gating_witness :
    (portalCheckStep portalWinState).2 = true ∧
    ((portalCheckStep { portalWinState with tokens := initialTokens.take 3 }).1.portal = none ∧
     (portalCheckStep { portalWinState with tokens := initialTokens.take 3 }).1.allTokensCollected
       = false ∧
     (portalCheckStep { portalWinState with tokens := initialTokens.take 3 }).2 = false) :=
  ⟨(C8_portal_gating portalWinState).1.mpr
     ⟨rfl, getWorldPositionFromGridCoordinates 5 5 24, rfl, rfl, by decide⟩,
   (C8_portal_gating { portalWinState with tokens := initialTokens.take 3 }).2
     (getWorldPositionFromGridCoordinates 5 5 24) rfl rfl (by decide)⟩

/-- Claim C9, counterexample.  The claim asserts the catch cue is played
exactly once per catch.  The manager plays `jensenCatch` in
`handleMonsterCatch` and the orchestrator's `handlePlayerCaught` plays it
again, so one catch event emits the cue twice. -/
theorem C9_caught_cue_cex :
    (monsterCatchPath portalWinState).2 = ["jensenCatch", "jensenCatch"] ∧
    (monsterCatchPath portalWinState).2.length ≠ 1 := by
  exact ⟨rfl, by decide⟩

/-- Claim C9, amended: whenever a pursuer catch event is raised, the
simulation is paused, the score is reset to zero, the catch cue is played
twice (once by the pursuer manager, once more by the orchestrator handler),
and control is handed to the UI dialog; the catch path itself leaves tokens
and pursuers untouched — the full reset runs only in the
acknowledgment callback, which is exactly `resetGame(true)`. -/
theorem C9_caught_event_contract (s : GameState) :
    (monsterCatchPath s).1.isPaused = true ∧
    (monsterCatchPath s).1.phase.score = 0 ∧
    (monsterCatchPath s).1.dialogPending = true ∧
    (monsterCatchPath s).2 = ["jensenCatch", "jensenCatch"] ∧
    (monsterCatchPath s).1.tokens = s.tokens ∧
    (monsterCatchPath s).1.monsters = s.monsters ∧
    acknowledgeCaughtDialog (monsterCatchPath s).1 = resetGame true (monsterCatchPath s).1 := by
  exact ⟨rfl, rfl, rfl, rfl, rfl, rfl, rfl⟩

/-- Claim C10: `resetGame` — with or without `fullReset` — does not touch the
player's sprint state: `sprintAvailable` and `sprintEnergy` survive a full
reset unchanged. -/
theorem C10_reset_preserves_sprint (s : GameState) (fullReset : Bool) :
    (resetGame fullReset s).sprintAvailable = s.sprintAvailable ∧
    (resetGame fullReset s).sprintEnergy = s.sprintEnergy := by
  unfold resetGame gameResetCore
  dsimp only
  rw [ite_self]
  constructor
  · split <;> split <;> rfl
  · split <;> split <;> rfl

end VMaze
